import Mathlib

/-!
# Verification of the azul layout / event-routing core

A shallow embedding, in Lean 4, of the parts of the azul repository that the
specification's claims are about:

* `src/src/ui_solver.rs` — the `WhConstraint` tri-state and the
  `determine_preferred!` constraint reducer;
* `src/azul-core/src/ui_solver.rs` — `ComputedTransform3D` with its
  constructors, `then`, `determinant`, `inverse`, `transform_point2d`,
  `from_style_transform`, `from_style_transform_vec`, and the per-node
  transform diff of `GpuValueCache::synchronize`;
* `src/azul-core/src/window_state.rs` — `StyleAndLayoutChanges::need_redraw`
  / `need_regenerate_display_list`, `get_window_events`, `Events::new` and
  `NodesToCheck::new`.

`f32` values are modelled as exact rationals (`ℚ`): every operation the
embedded code performs on them is a comparison, `min`/`max`, or field
arithmetic, all of which are exact here.  `f32::MAX` is modelled by the
rational with the same value.  Rust `BTreeMap`s are modelled as association
lists with a lookup function; `HashSet`s of events as lists with
membership/emptiness semantics.  Expressions are transcribed from the Rust
source verbatim, including places where the source's arithmetic differs from
the textbook formula (see the comments on `then_`, `determinant`,
`multiply_scalar`).
-/

/-- `f32::MAX` as an exact rational, `(2 - 2 ^ (-23)) * 2 ^ 127`, written as
the explicit numeral `2 ^ 128 - 2 ^ 104` so that kernel reduction works. -/
def f32Max : ℚ := 340282346638528859811704183484516925440

/-- Model of Rust `f32::is_sign_positive` for values representable here:
a rational is "sign positive" iff it is nonnegative (the float `+0.0` has a
positive sign bit; `ℚ` has no negative zero). -/
def is_sign_positive (w : ℚ) : Bool := decide (0 ≤ w)

/-! ## `WhConstraint` and `determine_preferred` (src/src/ui_solver.rs) -/

/-- `WhPrefer` from src/src/ui_solver.rs (lines 457-462). -/
inductive WhPrefer
  | min
  | max
deriving DecidableEq, Repr

/-- `WhConstraint` from src/src/ui_solver.rs: `Between(min, max, prefer)`,
`EqualTo(exact)`, `Unconstrained`. -/
inductive WhConstraint
  | between (mn mx : ℚ) (prefer : WhPrefer)
  | equalTo (exact : ℚ)
  | unconstrained
deriving DecidableEq, Repr

/-- The body of the `determine_preferred!` macro (src/src/ui_solver.rs lines
493-559), as a function of the three already-extracted pixel values
`width`, `min_width`, `max_width`.  Both `determine_preferred_width` and
`determine_preferred_height` instantiate this body.  The comparison
`min_width < max_width` in the source compares `Option<f32>` values that are
both `Some` at that point, which is the comparison of the payloads. -/
def determine_preferred (width min_width max_width : Option ℚ) : WhConstraint :=
  let amm : Option ℚ × Option ℚ :=
    match min_width, max_width with
    | some mn, some mx => if mn < mx then (some mn, some mx) else (some mx, some mx)
    | _, _ => (min_width, max_width)
  let absolute_min := amm.1
  let absolute_max := amm.2
  match width with
  | some w =>
    match absolute_max with
    | some mx =>
      match absolute_min with
      | some mn =>
        if mn < w ∧ w < mx then .equalTo w
        else if w > mx then .equalTo mx
        else if w < mn then .equalTo mn
        else .unconstrained  -- the branch the source marks `/* unreachable */`
      | none => .equalTo (min w mx)
    | none =>
      match absolute_min with
      | some mn => .equalTo (max w mn)
      | none => .equalTo w
  | none =>
    match absolute_max with
    | some mx =>
      match absolute_min with
      | some mn => .between mn mx .min
      | none => .between 0 mx .min
    | none =>
      match absolute_min with
      | some mn => .between mn f32Max .min
      | none => .unconstrained

/-! ## `ComputedTransform3D` (src/azul-core/src/ui_solver.rs lines 897-1383)

The source stores a row-major `[[f32;4];4]`; here `m[i][j]` is the field
`mIJ`.  The arithmetic of `then_`, `determinant`, `inverse` and
`multiply_scalar` is transcribed term by term from the source, including the
places where the source uses index `[3][2]` where the textbook formula would
use `[2][2]` — the embedding models the program, not the ideal formula. -/

/-- `LogicalPosition` (from azul-core `window.rs`, not under `src/`): a 2D
point with `f32` coordinates. -/
structure LogicalPosition where
  x : ℚ
  y : ℚ
deriving DecidableEq, Repr

/-- `ComputedTransform3D { m: [[f32;4];4] }`, row-major. -/
structure ComputedTransform3D where
  m00 : ℚ
  m01 : ℚ
  m02 : ℚ
  m03 : ℚ
  m10 : ℚ
  m11 : ℚ
  m12 : ℚ
  m13 : ℚ
  m20 : ℚ
  m21 : ℚ
  m22 : ℚ
  m23 : ℚ
  m30 : ℚ
  m31 : ℚ
  m32 : ℚ
  m33 : ℚ
deriving DecidableEq, Repr

/-- Rust `f32::f32_mul_add(self, a, b) = self * a + b` (exact over `ℚ`). -/
def f32_mul_add (a b c : ℚ) : ℚ := a * b + c

/-- `ComputedTransform3D::new(m11, …, m44)` — the 1-based argument `mIJ` is
stored at row `I-1`, column `J-1`. -/
def ComputedTransform3D.new
    (a11 a12 a13 a14 a21 a22 a23 a24 a31 a32 a33 a34 a41 a42 a43 a44 : ℚ) :
    ComputedTransform3D :=
  ⟨a11, a12, a13, a14, a21, a22, a23, a24, a31, a32, a33, a34, a41, a42, a43, a44⟩

/-- `ComputedTransform3D::IDENTITY`. -/
def ComputedTransform3D.IDENTITY : ComputedTransform3D :=
  ComputedTransform3D.new
    1 0 0 0
    0 1 0 0
    0 0 1 0
    0 0 0 1

/-- `ComputedTransform3D::new_2d`. -/
def ComputedTransform3D.new_2d (a11 a12 a21 a22 a41 a42 : ℚ) : ComputedTransform3D :=
  ComputedTransform3D.new
    a11 a12 0 0
    a21 a22 0 0
    0   0   1 0
    a41 a42 0 1

/-- `ComputedTransform3D::new_scale(x, y, z)`. -/
def ComputedTransform3D.new_scale (x y z : ℚ) : ComputedTransform3D :=
  ComputedTransform3D.new
    x 0 0 0
    0 y 0 0
    0 0 z 0
    0 0 0 1

/-- `ComputedTransform3D::new_translation(x, y, z)`. -/
def ComputedTransform3D.new_translation (x y z : ℚ) : ComputedTransform3D :=
  ComputedTransform3D.new
    1 0 0 0
    0 1 0 0
    0 0 1 0
    x y z 1

/-- `ComputedTransform3D::new_perspective(d)`. -/
def ComputedTransform3D.new_perspective (d : ℚ) : ComputedTransform3D :=
  ComputedTransform3D.new
    1 0 0 0
    0 1 0 0
    0 0 1 (-1 / d)
    0 0 0 1

/-- `ComputedTransform3D::then(&self, other)` (source lines 1177-1196), the
matrix product with `other` applied after `self`.  (`then` is a Lean keyword,
hence the trailing underscore.)  Transcribed verbatim: the source's entries
`[0][2]`, `[1][2]` and `[3][2]` use `other.m[3][2]` twice where the textbook
product would use `other.m[2][2]`, and its row-2 entries read `self.m[3][2]`
where the textbook product would read `self.m[2][2]`. -/
def ComputedTransform3D.then_ (s o : ComputedTransform3D) : ComputedTransform3D :=
  ComputedTransform3D.new
    (f32_mul_add s.m00 o.m00 (f32_mul_add s.m01 o.m10 (f32_mul_add s.m02 o.m20 (s.m03 * o.m30))))
    (f32_mul_add s.m00 o.m01 (f32_mul_add s.m01 o.m11 (f32_mul_add s.m02 o.m21 (s.m03 * o.m31))))
    (f32_mul_add s.m00 o.m02 (f32_mul_add s.m01 o.m12 (f32_mul_add s.m02 o.m32 (s.m03 * o.m32))))
    (f32_mul_add s.m00 o.m03 (f32_mul_add s.m01 o.m13 (f32_mul_add s.m02 o.m23 (s.m03 * o.m33))))
    (f32_mul_add s.m10 o.m00 (f32_mul_add s.m11 o.m10 (f32_mul_add s.m12 o.m20 (s.m13 * o.m30))))
    (f32_mul_add s.m10 o.m01 (f32_mul_add s.m11 o.m11 (f32_mul_add s.m12 o.m21 (s.m13 * o.m31))))
    (f32_mul_add s.m10 o.m02 (f32_mul_add s.m11 o.m12 (f32_mul_add s.m12 o.m32 (s.m13 * o.m32))))
    (f32_mul_add s.m10 o.m03 (f32_mul_add s.m11 o.m13 (f32_mul_add s.m12 o.m23 (s.m13 * o.m33))))
    (f32_mul_add s.m20 o.m00 (f32_mul_add s.m21 o.m10 (f32_mul_add s.m32 o.m20 (s.m23 * o.m30))))
    (f32_mul_add s.m20 o.m01 (f32_mul_add s.m21 o.m11 (f32_mul_add s.m32 o.m21 (s.m23 * o.m31))))
    (f32_mul_add s.m20 o.m02 (f32_mul_add s.m21 o.m12 (f32_mul_add s.m32 o.m32 (s.m23 * o.m32))))
    (f32_mul_add s.m20 o.m03 (f32_mul_add s.m21 o.m13 (f32_mul_add s.m32 o.m23 (s.m23 * o.m33))))
    (f32_mul_add s.m30 o.m00 (f32_mul_add s.m31 o.m10 (f32_mul_add s.m32 o.m20 (s.m33 * o.m30))))
    (f32_mul_add s.m30 o.m01 (f32_mul_add s.m31 o.m11 (f32_mul_add s.m32 o.m21 (s.m33 * o.m31))))
    (f32_mul_add s.m30 o.m02 (f32_mul_add s.m31 o.m12 (f32_mul_add s.m32 o.m32 (s.m33 * o.m32))))
    (f32_mul_add s.m30 o.m03 (f32_mul_add s.m31 o.m13 (f32_mul_add s.m32 o.m23 (s.m33 * o.m33))))

/-- `ComputedTransform3D::determinant` (source lines 1280-1306), transcribed
term by term (the source writes `m[3][2]` in the six places where the
textbook 4×4 determinant has `m[2][2]`). -/
def ComputedTransform3D.determinant (s : ComputedTransform3D) : ℚ :=
  s.m03 * s.m12 * s.m21 * s.m30 -
  s.m02 * s.m13 * s.m21 * s.m30 -
  s.m03 * s.m11 * s.m32 * s.m30 +
  s.m01 * s.m13 * s.m32 * s.m30 +
  s.m02 * s.m11 * s.m23 * s.m30 -
  s.m01 * s.m12 * s.m23 * s.m30 -
  s.m03 * s.m12 * s.m20 * s.m31 +
  s.m02 * s.m13 * s.m20 * s.m31 +
  s.m03 * s.m10 * s.m32 * s.m31 -
  s.m00 * s.m13 * s.m32 * s.m31 -
  s.m02 * s.m10 * s.m23 * s.m31 +
  s.m00 * s.m12 * s.m23 * s.m31 +
  s.m03 * s.m11 * s.m20 * s.m32 -
  s.m01 * s.m13 * s.m20 * s.m32 -
  s.m03 * s.m10 * s.m21 * s.m32 +
  s.m00 * s.m13 * s.m21 * s.m32 +
  s.m01 * s.m10 * s.m23 * s.m32 -
  s.m00 * s.m11 * s.m23 * s.m32 -
  s.m02 * s.m11 * s.m20 * s.m33 +
  s.m01 * s.m12 * s.m20 * s.m33 +
  s.m02 * s.m10 * s.m21 * s.m33 -
  s.m00 * s.m12 * s.m21 * s.m33 -
  s.m01 * s.m10 * s.m32 * s.m33 +
  s.m00 * s.m11 * s.m32 * s.m33

/-- `ComputedTransform3D::multiply_scalar` (source lines 1311-1318); the
source's third row passes `self.m[3][2] * x` in the `[2][2]` slot. -/
def ComputedTransform3D.multiply_scalar (s : ComputedTransform3D) (x : ℚ) : ComputedTransform3D :=
  ComputedTransform3D.new
    (s.m00 * x) (s.m01 * x) (s.m02 * x) (s.m03 * x)
    (s.m10 * x) (s.m11 * x) (s.m12 * x) (s.m13 * x)
    (s.m20 * x) (s.m21 * x) (s.m32 * x) (s.m23 * x)
    (s.m30 * x) (s.m31 * x) (s.m32 * x) (s.m33 * x)

/-- `ComputedTransform3D::inverse` (source lines 1200-1276): computes the
determinant, returns `None` when it is zero, otherwise the transcribed
cofactor matrix scaled by `1.0 / det`. -/
def ComputedTransform3D.inverse (s : ComputedTransform3D) : Option ComputedTransform3D :=
  let det := s.determinant
  if det = 0 then none
  else
    let m := ComputedTransform3D.new
      (s.m12 * s.m23 * s.m31 - s.m13 * s.m32 * s.m31 +
       s.m13 * s.m21 * s.m32 - s.m11 * s.m23 * s.m32 -
       s.m12 * s.m21 * s.m33 + s.m11 * s.m32 * s.m33)
      (s.m03 * s.m32 * s.m31 - s.m02 * s.m23 * s.m31 -
       s.m03 * s.m21 * s.m32 + s.m01 * s.m23 * s.m32 +
       s.m02 * s.m21 * s.m33 - s.m01 * s.m32 * s.m33)
      (s.m02 * s.m13 * s.m31 - s.m03 * s.m12 * s.m31 +
       s.m03 * s.m11 * s.m32 - s.m01 * s.m13 * s.m32 -
       s.m02 * s.m11 * s.m33 + s.m01 * s.m12 * s.m33)
      (s.m03 * s.m12 * s.m21 - s.m02 * s.m13 * s.m21 -
       s.m03 * s.m11 * s.m32 + s.m01 * s.m13 * s.m32 +
       s.m02 * s.m11 * s.m23 - s.m01 * s.m12 * s.m23)
      (s.m13 * s.m32 * s.m30 - s.m12 * s.m23 * s.m30 -
       s.m13 * s.m20 * s.m32 + s.m10 * s.m23 * s.m32 +
       s.m12 * s.m20 * s.m33 - s.m10 * s.m32 * s.m33)
      (s.m02 * s.m23 * s.m30 - s.m03 * s.m32 * s.m30 +
       s.m03 * s.m20 * s.m32 - s.m00 * s.m23 * s.m32 -
       s.m02 * s.m20 * s.m33 + s.m00 * s.m32 * s.m33)
      (s.m03 * s.m12 * s.m30 - s.m02 * s.m13 * s.m30 -
       s.m03 * s.m10 * s.m32 + s.m00 * s.m13 * s.m32 +
       s.m02 * s.m10 * s.m33 - s.m00 * s.m12 * s.m33)
      (s.m02 * s.m13 * s.m20 - s.m03 * s.m12 * s.m20 +
       s.m03 * s.m10 * s.m32 - s.m00 * s.m13 * s.m32 -
       s.m02 * s.m10 * s.m23 + s.m00 * s.m12 * s.m23)
      (s.m11 * s.m23 * s.m30 - s.m13 * s.m21 * s.m30 +
       s.m13 * s.m20 * s.m31 - s.m10 * s.m23 * s.m31 -
       s.m11 * s.m20 * s.m33 + s.m10 * s.m21 * s.m33)
      (s.m03 * s.m21 * s.m30 - s.m01 * s.m23 * s.m30 -
       s.m03 * s.m20 * s.m31 + s.m00 * s.m23 * s.m31 +
       s.m01 * s.m20 * s.m33 - s.m00 * s.m21 * s.m33)
      (s.m01 * s.m13 * s.m30 - s.m03 * s.m11 * s.m30 +
       s.m03 * s.m10 * s.m31 - s.m00 * s.m13 * s.m31 -
       s.m01 * s.m10 * s.m33 + s.m00 * s.m11 * s.m33)
      (s.m03 * s.m11 * s.m20 - s.m01 * s.m13 * s.m20 -
       s.m03 * s.m10 * s.m21 + s.m00 * s.m13 * s.m21 +
       s.m01 * s.m10 * s.m23 - s.m00 * s.m11 * s.m23)
      (s.m12 * s.m21 * s.m30 - s.m11 * s.m32 * s.m30 -
       s.m12 * s.m20 * s.m31 + s.m10 * s.m32 * s.m31 +
       s.m11 * s.m20 * s.m32 - s.m10 * s.m21 * s.m32)
      (s.m01 * s.m32 * s.m30 - s.m02 * s.m21 * s.m30 +
       s.m02 * s.m20 * s.m31 - s.m00 * s.m32 * s.m31 -
       s.m01 * s.m20 * s.m32 + s.m00 * s.m21 * s.m32)
      (s.m02 * s.m11 * s.m30 - s.m01 * s.m12 * s.m30 -
       s.m02 * s.m10 * s.m31 + s.m00 * s.m12 * s.m31 +
       s.m01 * s.m10 * s.m32 - s.m00 * s.m11 * s.m32)
      (s.m01 * s.m12 * s.m20 - s.m02 * s.m11 * s.m20 +
       s.m02 * s.m10 * s.m21 - s.m00 * s.m12 * s.m21 -
       s.m01 * s.m10 * s.m32 + s.m00 * s.m11 * s.m32)
    some (m.multiply_scalar (1 / det))

/-- The homogeneous coordinate `w` computed by `transform_point2d`:
`p.x.f32_mul_add(m[0][3], p.y.f32_mul_add(m[1][3], m[3][3]))`. -/
def tpw (s : ComputedTransform3D) (px py : ℚ) : ℚ :=
  f32_mul_add px s.m03 (f32_mul_add py s.m13 s.m33)

/-- The `x` numerator of `transform_point2d`. -/
def tpx (s : ComputedTransform3D) (px py : ℚ) : ℚ :=
  f32_mul_add px s.m00 (f32_mul_add py s.m10 s.m30)

/-- The `y` numerator of `transform_point2d`. -/
def tpy (s : ComputedTransform3D) (px py : ℚ) : ℚ :=
  f32_mul_add px s.m01 (f32_mul_add py s.m11 s.m31)

/-- `ComputedTransform3D::transform_point2d` (source lines 1164-1173; the
source has obvious syntax slips — `p` for `point`, unbalanced parentheses, a
bare `if !w.is_sign_positive() { None }` — read as the evident early-return).
The guard is `!w.is_sign_positive()`, not `w <= 0.0`. -/
def ComputedTransform3D.transform_point2d (s : ComputedTransform3D) (point : LogicalPosition) :
    Option LogicalPosition :=
  let w := tpw s point.x point.y
  if is_sign_positive w = false then none
  else
    let x := tpx s point.x point.y
    let y := tpy s point.x point.y
    some ⟨x / w, y / w⟩

/-! ## Style transforms and `from_style_transform` (src/azul-core/src/ui_solver.rs)

`PixelValue`, `PercentageValue`, `StyleTransform` and `StyleTransformOrigin`
live in the `azul-css` crate, which is not under `src/`; they are modelled
from the spec here (§6 "Transform CSS → matrix").  The `Rotate*` and `Skew*`
variants of `StyleTransform` need `sin`/`cos`/`tan` and are outside every
claim, so the modelled enum carries only the algebraic variants that
`from_style_transform` handles without trigonometry. -/

/-- Modelled from the spec: azul-css `PixelValue` — a length that is either
an absolute pixel amount or a percentage resolved against a reference. -/
inductive PixelValue
  | px (v : ℚ)
  | percent (v : ℚ)
deriving DecidableEq, Repr

/-- Modelled from the spec: `PixelValue::to_pixels(percent_resolve)` —
"Percentage values resolve against `percent_resolve`". -/
def PixelValue.to_pixels (pv : PixelValue) (percent_resolve : ℚ) : ℚ :=
  match pv with
  | .px v => v
  | .percent v => v / 100 * percent_resolve

/-- Modelled from the spec: azul-css `PercentageValue` (scale factors are
percentages). -/
structure PercentageValue where
  v : ℚ
deriving DecidableEq, Repr

/-- Modelled from the spec: `PercentageValue::normalized() = value / 100`. -/
def PercentageValue.normalized (p : PercentageValue) : ℚ := p.v / 100

/-- Modelled from the spec: azul-css `StyleTransformOrigin { x, y }`. -/
structure StyleTransformOrigin where
  x : PixelValue
  y : PixelValue
deriving DecidableEq, Repr

/-- Modelled from the spec: `StyleTransformOrigin::default()` — the spec's
"origin_i_or_0_or_default"; only rotation variants read it, so its value is
irrelevant to the claims. -/
def StyleTransformOrigin.default : StyleTransformOrigin := ⟨.px 0, .px 0⟩

/-- Modelled from the spec: the non-trigonometric `StyleTransform` variants
(azul-css, not under `src/`).  Field lists follow §6 of the spec and the
pattern matches of `from_style_transform`. -/
inductive StyleTransform
  | matrix (a b c d tx ty : PixelValue)
  | matrix3D (a11 a12 a13 a14 a21 a22 a23 a24 a31 a32 a33 a34 a41 a42 a43 a44 : PixelValue)
  | translate (x y : PixelValue)
  | translate3D (x y z : PixelValue)
  | translateX (x : PixelValue)
  | translateY (y : PixelValue)
  | translateZ (z : PixelValue)
  | scale (x y : PercentageValue)
  | scale3D (x y z : PercentageValue)
  | scaleX (x : PercentageValue)
  | scaleY (y : PercentageValue)
  | scaleZ (z : PercentageValue)
  | perspective (d : PixelValue)
deriving DecidableEq, Repr

/-- `ComputedTransform3D::from_style_transform` (source lines 961-1082),
restricted to the variants above; each arm transcribed from the source.  In
particular the `Scale`/`Scale3D`/`ScaleX`/`ScaleY`/`ScaleZ` arms (source
lines 1064-1076) pass `0.0` — not `1.0` — for every axis the transform does
not mention. -/
def ComputedTransform3D.from_style_transform (t : StyleTransform)
    (_transform_origin : StyleTransformOrigin) (percent_resolve : ℚ) : ComputedTransform3D :=
  match t with
  | .matrix a b c d tx ty =>
      ComputedTransform3D.new_2d
        (a.to_pixels percent_resolve) (b.to_pixels percent_resolve)
        (c.to_pixels percent_resolve) (d.to_pixels percent_resolve)
        (tx.to_pixels percent_resolve) (ty.to_pixels percent_resolve)
  | .matrix3D a11 a12 a13 a14 a21 a22 a23 a24 a31 a32 a33 a34 a41 a42 a43 a44 =>
      ComputedTransform3D.new
        (a11.to_pixels percent_resolve) (a12.to_pixels percent_resolve)
        (a13.to_pixels percent_resolve) (a14.to_pixels percent_resolve)
        (a21.to_pixels percent_resolve) (a22.to_pixels percent_resolve)
        (a23.to_pixels percent_resolve) (a24.to_pixels percent_resolve)
        (a31.to_pixels percent_resolve) (a32.to_pixels percent_resolve)
        (a33.to_pixels percent_resolve) (a34.to_pixels percent_resolve)
        (a41.to_pixels percent_resolve) (a42.to_pixels percent_resolve)
        (a43.to_pixels percent_resolve) (a44.to_pixels percent_resolve)
  | .translate x y =>
      ComputedTransform3D.new_translation
        (x.to_pixels percent_resolve) (y.to_pixels percent_resolve) 0
  | .translate3D x y z =>
      ComputedTransform3D.new_translation
        (x.to_pixels percent_resolve) (y.to_pixels percent_resolve) (z.to_pixels percent_resolve)
  | .translateX x => ComputedTransform3D.new_translation (x.to_pixels percent_resolve) 0 0
  | .translateY y => ComputedTransform3D.new_translation 0 (y.to_pixels percent_resolve) 0
  | .translateZ z => ComputedTransform3D.new_translation 0 0 (z.to_pixels percent_resolve)
  | .scale x y => ComputedTransform3D.new_scale x.normalized y.normalized 0
  | .scale3D x y z => ComputedTransform3D.new_scale x.normalized y.normalized z.normalized
  | .scaleX x => ComputedTransform3D.new_scale x.normalized 0 0
  | .scaleY y => ComputedTransform3D.new_scale 0 y.normalized 0
  | .scaleZ z => ComputedTransform3D.new_scale 0 0 z.normalized
  | .perspective d => ComputedTransform3D.new_perspective (d.to_pixels percent_resolve)

/-- `ComputedTransform3D::from_style_transform_vec` (source lines 945-957).
The source's loop body reads
`matrix.then(Self::from_style_transform(t, transform_origin, percent_resolve));`
— `then` takes `&self` and returns a new matrix (it is `#[must_use]`), and
the returned value is discarded; `matrix` is never reassigned.  The fold
below mirrors that: the product is computed and dropped, and the
accumulator is returned unchanged. -/
def ComputedTransform3D.from_style_transform_vec (t_vec : List StyleTransform)
    (transform_origins : List StyleTransformOrigin) (percent_resolve : ℚ) :
    ComputedTransform3D :=
  let matrix := ComputedTransform3D.IDENTITY
  t_vec.enum.foldl
    (fun m ti =>
      let transform_origin :=
        (transform_origins.get? ti.1).getD
          ((transform_origins.get? 0).getD StyleTransformOrigin.default)
      let _ := m.then_ (ComputedTransform3D.from_style_transform ti.2 transform_origin percent_resolve)
      m)
    matrix

/-- Modelled from the spec (§4.3 step 2): the fold the spec describes for a
non-empty transform list — `IDENTITY.then(T1).then(T2)…` with each `Ti`
built by `from_style_transform(t_i, origin_i_or_0_or_default,
percent_resolve)`.  This is the spec-side definition used to compare against
`from_style_transform_vec` above. -/
def from_style_transform_vec_spec (t_vec : List StyleTransform)
    (transform_origins : List StyleTransformOrigin) (percent_resolve : ℚ) :
    ComputedTransform3D :=
  t_vec.enum.foldl
    (fun m ti =>
      let transform_origin :=
        (transform_origins.get? ti.1).getD
          ((transform_origins.get? 0).getD StyleTransformOrigin.default)
      m.then_ (ComputedTransform3D.from_style_transform ti.2 transform_origin percent_resolve))
    ComputedTransform3D.IDENTITY

/-! ## The transform differ of `GpuValueCache::synchronize`
(src/azul-core/src/ui_solver.rs lines 429-494) -/

/-- `TransformKey` — an opaque process-unique id (azul-core `app_resources`,
not under `src/`). -/
structure TransformKey where
  id : ℕ
deriving DecidableEq, Repr

/-- `GpuTransformKeyEvent` (source lines 401-405): `Added(TransformKey,
ComputedTransform3D)`, `Changed(TransformKey, ComputedTransform3D)`,
`Removed(TransformKey)`. -/
inductive GpuTransformKeyEvent
  | Added (key : TransformKey) (t : ComputedTransform3D)
  | Changed (key : TransformKey) (t : ComputedTransform3D)
  | Removed (key : TransformKey)
deriving DecidableEq, Repr

/-- The per-node transform diff inside `GpuValueCache::synchronize` (source
lines 455-462): `existing_transform` is the cached
`current_transform_values` entry, `current_transform` the freshly computed
one, `fresh_key` the `TransformKey::unique()` that would be minted for an
`Added`, and `node_key` the `transform_keys` entry whose absence aborts via
`?`.  The source arm `(Some(old), Some(new))` constructs
`Changed(key, old, new)` — three arguments to the two-field `Changed`
variant, which does not typecheck; it is embedded as the two-field
construction its own enum declares, keeping the source's unconditional
emission (no `old == new` check). -/
def synchronize_transform_event
    (existing_transform current_transform : Option ComputedTransform3D)
    (fresh_key : TransformKey) (node_key : Option TransformKey) :
    Option GpuTransformKeyEvent :=
  match existing_transform, current_transform with
  | none, none => none
  | none, some nw => some (.Added fresh_key nw)
  | some _old, some nw => node_key.map (fun k => .Changed k nw)
  | some _old, none => node_key.map (fun k => .Removed k)

/-! ## `StyleAndLayoutChanges` (src/azul-core/src/window_state.rs) -/

/-- Modelled from the spec (§4.7): the property kinds the change classifier
distinguishes.  `CssPropertyType` itself is in azul-css, not under `src/`;
only `is_gpu_only_property` and `can_trigger_relayout` matter here. -/
inductive CssPropertyType
  | opacity
  | transform
  | width
  | height
  | margin
  | display
  | background
  | color
deriving DecidableEq, Repr

/-- Modelled from the spec: "GPU-only (opacity, transform)". -/
def CssPropertyType.is_gpu_only_property : CssPropertyType → Bool
  | .opacity => true
  | .transform => true
  | _ => false

/-- Modelled from the spec: "trigger relayout (width, margin, display, …)". -/
def CssPropertyType.can_trigger_relayout : CssPropertyType → Bool
  | .width => true
  | .height => true
  | .margin => true
  | .display => true
  | _ => false

/-- Minimal model of azul-css `CssProperty` (not under `src/`): the change
classifier only ever asks `get_type()` of it. -/
structure CssProperty where
  ptype : CssPropertyType
deriving DecidableEq, Repr

/-- `CssProperty::get_type()`. -/
def CssProperty.get_type (p : CssProperty) : CssPropertyType := p.ptype

/-- `ChangedCssProperty` (azul-core `styled_dom`, not under `src/`): the
pair of previous and current property values recorded for a restyled node. -/
structure ChangedCssProperty where
  previous_prop : CssProperty
  current_prop : CssProperty
deriving DecidableEq, Repr

/-- `StyleAndLayoutChanges` (source lines 246-254).  `DomId` and `NodeId`
are dense integer ids, modelled as `ℕ`; the `BTreeMap`s are association
lists. -/
structure StyleAndLayoutChanges where
  style_changes : List (ℕ × List (ℕ × List ChangedCssProperty))
  layout_changes : List (ℕ × List (ℕ × List ChangedCssProperty))
  nodes_that_changed_size : List (ℕ × List ℕ)
deriving DecidableEq, Repr

/-- `StyleAndLayoutChanges::need_redraw` (source lines 438-441), transcribed
as written: the conjunction
`!style_changes.is_empty() && !layout_changes.is_empty() && !nodes_that_changed_size.is_empty()`. -/
def StyleAndLayoutChanges.need_redraw (s : StyleAndLayoutChanges) : Bool :=
  !s.style_changes.isEmpty && !s.layout_changes.isEmpty && !s.nodes_that_changed_size.isEmpty

/-- `StyleAndLayoutChanges::need_regenerate_display_list` (source lines
428-436): `false` when `need_redraw` is `false`, otherwise the source
returns `style_changes.iter().all(… is_gpu_only_property())` — with no
negation. -/
def StyleAndLayoutChanges.need_regenerate_display_list (s : StyleAndLayoutChanges) : Bool :=
  if !s.need_redraw then false
  else
    s.style_changes.all (fun restyle_nodes =>
      restyle_nodes.2.all (fun changed_css_properties =>
        changed_css_properties.2.all (fun changed_prop =>
          changed_prop.current_prop.get_type.is_gpu_only_property)))

/-! ## Window state and event derivation (src/azul-core/src/window_state.rs)

`FullWindowState` and its component types live in azul-core `window.rs`
(not under `src/`); they are modelled with exactly the fields
`get_window_events` / `Events::new` / `NodesToCheck::new` read, with `f32`
as `ℚ`, ids as `ℕ`, and maps as association lists.  The `HashSet` of events
is modelled as a `List` built from conditional singletons; only membership
and emptiness of it are ever observed. -/

/-- Window flags: the two fields `get_window_events` reads. -/
structure WindowFlags where
  has_focus : Bool
  is_about_to_close : Bool
deriving DecidableEq, Repr

/-- Window size: dimensions and the two hidpi factors. -/
structure WindowSize where
  dimensions : ℚ × ℚ
  hidpi_factor : ℚ
  system_hidpi_factor : ℚ
deriving DecidableEq, Repr

/-- `WindowPosition { Uninitialized | Initialized(pos) }`. -/
inductive WindowPosition
  | Uninitialized
  | Initialized (x y : ℤ)
deriving DecidableEq, Repr

/-- `CursorPosition { Uninitialized | OutOfWindow | InWindow(p) }`. -/
inductive CursorPosition
  | Uninitialized
  | OutOfWindow
  | InWindow (x y : ℚ)
deriving DecidableEq, Repr

/-- Mouse state: the fields `get_window_events` reads. -/
structure MouseState where
  cursor_position : CursorPosition
  left_down : Bool
  right_down : Bool
  middle_down : Bool
  scroll_x : Option ℚ
  scroll_y : Option ℚ
deriving DecidableEq, Repr

/-- Modelled from the spec: `MouseState::mouse_down()` — "any-button down". -/
def MouseState.mouse_down (m : MouseState) : Bool :=
  m.left_down || m.right_down || m.middle_down

/-- Keyboard state: the fields `get_window_events` reads.  Keycodes and
characters are opaque, modelled as `ℕ`. -/
structure KeyboardState where
  current_virtual_keycode : Option ℕ
  current_char : Option ℕ
deriving DecidableEq, Repr

/-- `WindowTheme`. -/
inductive WindowTheme
  | Light
  | Dark
deriving DecidableEq, Repr

/-- `HitTestItem` (azul-core `callbacks.rs`, not under `src/`): its payload
is carried around but never inspected by the embedded code, so it is
modelled as an opaque tag. -/
structure HitTestItem where
  tag : ℕ
deriving DecidableEq, Repr

/-- The part of a per-DOM hit test that `Events::new` and
`NodesToCheck::new` read: its `regular_hit_test_nodes` map. -/
structure DomHitTest where
  regular_hit_test_nodes : List (ℕ × HitTestItem)
deriving DecidableEq, Repr

/-- `FullWindowState`: the window snapshot diffed by `get_window_events`,
with `hovered_nodes` (`DomId → HitTest`) and `focused_node`
(`Option<DomNodeId>`, modelled as a `(dom, node)` pair). -/
structure FullWindowState where
  flags : WindowFlags
  size : WindowSize
  position : WindowPosition
  mouse_state : MouseState
  keyboard_state : KeyboardState
  theme : WindowTheme
  hovered_file : Option ℕ
  dropped_file : Option ℕ
  hovered_nodes : List (ℕ × DomHitTest)
  focused_node : Option (ℕ × ℕ)
deriving DecidableEq, Repr

/-- `WindowEventFilter` (azul-core `dom.rs`, not under `src/`): exactly the
variants `get_window_events` constructs. -/
inductive WindowEventFilter
  | FocusReceived
  | FocusLost
  | Resized
  | Moved
  | CloseRequested
  | MouseLeave
  | MouseEnter
  | MouseOver
  | MouseDown
  | LeftMouseDown
  | RightMouseDown
  | MiddleMouseDown
  | MouseUp
  | LeftMouseUp
  | RightMouseUp
  | MiddleMouseUp
  | ScrollStart
  | Scroll
  | ScrollEnd
  | VirtualKeyDown
  | VirtualKeyUp
  | TextInput
  | HoveredFile
  | DroppedFile
  | HoveredFileCancelled
  | ThemeChanged
deriving DecidableEq, Repr

/-- `HoverEventFilter` (azul-core `dom.rs`, not under `src/`): the hover
counterparts of the window events, plus the two synthesized by
`Events::new`. -/
inductive HoverEventFilter
  | MouseOver
  | MouseDown
  | LeftMouseDown
  | RightMouseDown
  | MiddleMouseDown
  | MouseUp
  | LeftMouseUp
  | RightMouseUp
  | MiddleMouseUp
  | MouseEnter
  | MouseLeave
  | Scroll
  | ScrollStart
  | ScrollEnd
  | TextInput
  | VirtualKeyDown
  | VirtualKeyUp
  | HoveredFile
  | DroppedFile
  | HoveredFileCancelled
deriving DecidableEq, Repr

/-- `FocusEventFilter` (azul-core `dom.rs`, not under `src/`). -/
inductive FocusEventFilter
  | MouseOver
  | MouseDown
  | LeftMouseDown
  | RightMouseDown
  | MiddleMouseDown
  | MouseUp
  | LeftMouseUp
  | RightMouseUp
  | MiddleMouseUp
  | MouseEnter
  | MouseLeave
  | Scroll
  | ScrollStart
  | ScrollEnd
  | TextInput
  | VirtualKeyDown
  | VirtualKeyUp
  | FocusReceived
  | FocusLost
deriving DecidableEq, Repr

/-- Modelled from the spec (§4.5 "Lifting"):
`WindowEventFilter::to_hover_event_filter()` — window events that have a
hover counterpart map to it, window-level ones map to `None`.  The claims
never depend on the exact table, only on `filter_map` over it. -/
def WindowEventFilter.to_hover_event_filter : WindowEventFilter → Option HoverEventFilter
  | .MouseOver => some .MouseOver
  | .MouseDown => some .MouseDown
  | .LeftMouseDown => some .LeftMouseDown
  | .RightMouseDown => some .RightMouseDown
  | .MiddleMouseDown => some .MiddleMouseDown
  | .MouseUp => some .MouseUp
  | .LeftMouseUp => some .LeftMouseUp
  | .RightMouseUp => some .RightMouseUp
  | .MiddleMouseUp => some .MiddleMouseUp
  | .MouseEnter => some .MouseEnter
  | .MouseLeave => some .MouseLeave
  | .Scroll => some .Scroll
  | .ScrollStart => some .ScrollStart
  | .ScrollEnd => some .ScrollEnd
  | .TextInput => some .TextInput
  | .VirtualKeyDown => some .VirtualKeyDown
  | .VirtualKeyUp => some .VirtualKeyUp
  | .HoveredFile => some .HoveredFile
  | .DroppedFile => some .DroppedFile
  | .HoveredFileCancelled => some .HoveredFileCancelled
  | _ => none

/-- Modelled from the spec (§4.5 "Lifting"):
`HoverEventFilter::to_focus_event_filter()`. -/
def HoverEventFilter.to_focus_event_filter : HoverEventFilter → Option FocusEventFilter
  | .MouseOver => some .MouseOver
  | .MouseDown => some .MouseDown
  | .LeftMouseDown => some .LeftMouseDown
  | .RightMouseDown => some .RightMouseDown
  | .MiddleMouseDown => some .MiddleMouseDown
  | .MouseUp => some .MouseUp
  | .LeftMouseUp => some .LeftMouseUp
  | .RightMouseUp => some .RightMouseUp
  | .MiddleMouseUp => some .MiddleMouseUp
  | .MouseEnter => some .MouseEnter
  | .MouseLeave => some .MouseLeave
  | .Scroll => some .Scroll
  | .ScrollStart => some .ScrollStart
  | .ScrollEnd => some .ScrollEnd
  | .TextInput => some .TextInput
  | .VirtualKeyDown => some .VirtualKeyDown
  | .VirtualKeyUp => some .VirtualKeyUp
  | _ => none

/-- A conditional `HashSet::insert`: the singleton when the guard holds,
nothing otherwise.  `get_window_events` is the concatenation of these. -/
def cond_insert (c : Prop) [Decidable c] (e : WindowEventFilter) : List WindowEventFilter :=
  if c then [e] else []

/-- The `Moved` guard of `get_window_events` (source lines 801-811),
matching on `(current.position, previous.position)`. -/
def moved_event : WindowPosition → WindowPosition → Bool
  | .Initialized cx cy, .Initialized px py => decide (¬((px, py) = (cx, cy)))
  | .Initialized _ _, .Uninitialized => true
  | _, _ => false

/-- The `MouseLeave` guard (source lines 819-823), matching on
`(previous.cursor_position, current.cursor_position)`. -/
def mouse_leave_event : CursorPosition → CursorPosition → Bool
  | .InWindow _ _, .OutOfWindow => true
  | .InWindow _ _, .Uninitialized => true
  | _, _ => false

/-- The `MouseEnter` guard (source lines 824-827). -/
def mouse_enter_event : CursorPosition → CursorPosition → Bool
  | .OutOfWindow, .InWindow _ _ => true
  | .Uninitialized, .InWindow _ _ => true
  | _, _ => false

/-- The `MouseOver` guard (source lines 828-832). -/
def mouse_over_event : CursorPosition → CursorPosition → Bool
  | .InWindow ax ay, .InWindow bx bz => decide (¬((ax, ay) = (bx, bz)))
  | _, _ => false

/-- `get_window_events` (source lines 773-923).  With no previous state the
freshly created set is returned untouched (lines 780-783); otherwise each
`insert` site becomes one `cond_insert` in source order.  Set semantics:
only membership and emptiness of the result are observed. -/
def get_window_events (current : FullWindowState) (previous : Option FullWindowState) :
    List WindowEventFilter :=
  match previous with
  | none => []
  | some prev =>
    let is_scroll_previous :=
      prev.mouse_state.scroll_x.isSome || prev.mouse_state.scroll_y.isSome
    let is_scroll_now :=
      current.mouse_state.scroll_x.isSome || current.mouse_state.scroll_y.isSome
    cond_insert (current.flags.has_focus ≠ prev.flags.has_focus ∧
                 current.flags.has_focus = true) .FocusReceived ++
    cond_insert (current.flags.has_focus ≠ prev.flags.has_focus ∧
                 current.flags.has_focus = false) .FocusLost ++
    cond_insert (current.size.dimensions ≠ prev.size.dimensions ∨
                 current.size.hidpi_factor ≠ prev.size.hidpi_factor ∨
                 current.size.system_hidpi_factor ≠ prev.size.system_hidpi_factor) .Resized ++
    cond_insert (moved_event current.position prev.position = true) .Moved ++
    cond_insert (current.flags.is_about_to_close = true) .CloseRequested ++
    cond_insert (mouse_leave_event prev.mouse_state.cursor_position
                   current.mouse_state.cursor_position = true) .MouseLeave ++
    cond_insert (mouse_enter_event prev.mouse_state.cursor_position
                   current.mouse_state.cursor_position = true) .MouseEnter ++
    cond_insert (mouse_over_event prev.mouse_state.cursor_position
                   current.mouse_state.cursor_position = true) .MouseOver ++
    cond_insert (current.mouse_state.mouse_down = true ∧
                 prev.mouse_state.mouse_down = false) .MouseDown ++
    cond_insert (current.mouse_state.left_down = true ∧
                 prev.mouse_state.left_down = false) .LeftMouseDown ++
    cond_insert (current.mouse_state.right_down = true ∧
                 prev.mouse_state.right_down = false) .RightMouseDown ++
    cond_insert (current.mouse_state.middle_down = true ∧
                 prev.mouse_state.middle_down = false) .MiddleMouseDown ++
    cond_insert (prev.mouse_state.mouse_down = true ∧
                 current.mouse_state.mouse_down = false) .MouseUp ++
    cond_insert (prev.mouse_state.left_down = true ∧
                 current.mouse_state.left_down = false) .LeftMouseUp ++
    cond_insert (prev.mouse_state.right_down = true ∧
                 current.mouse_state.right_down = false) .RightMouseUp ++
    cond_insert (prev.mouse_state.middle_down = true ∧
                 current.mouse_state.middle_down = false) .MiddleMouseUp ++
    cond_insert (is_scroll_previous = false ∧ is_scroll_now = true) .ScrollStart ++
    cond_insert (is_scroll_now = true) .Scroll ++
    cond_insert (is_scroll_previous = true ∧ is_scroll_now = false) .ScrollEnd ++
    cond_insert (prev.keyboard_state.current_virtual_keycode.isNone = true ∧
                 current.keyboard_state.current_virtual_keycode.isSome = true) .VirtualKeyDown ++
    cond_insert (current.keyboard_state.current_char.isSome = true) .TextInput ++
    cond_insert (prev.keyboard_state.current_virtual_keycode.isSome = true ∧
                 current.keyboard_state.current_virtual_keycode.isNone = true) .VirtualKeyUp ++
    cond_insert (prev.hovered_file.isNone = true ∧
                 current.hovered_file.isSome = true) .HoveredFile ++
    cond_insert (prev.hovered_file.isSome = true ∧ current.hovered_file.isNone = true ∧
                 current.dropped_file.isSome = true) .DroppedFile ++
    cond_insert (prev.hovered_file.isSome = true ∧ current.hovered_file.isNone = true ∧
                 current.dropped_file.isNone = true) .HoveredFileCancelled ++
    cond_insert (current.theme ≠ prev.theme) .ThemeChanged

/-- `get_hover_events` (source lines 925-927). -/
def get_hover_events (input : List WindowEventFilter) : List HoverEventFilter :=
  input.filterMap WindowEventFilter.to_hover_event_filter

/-- `get_focus_events` (source lines 929-931). -/
def get_focus_events (input : List HoverEventFilter) : List FocusEventFilter :=
  input.filterMap HoverEventFilter.to_focus_event_filter

/-- `Events` (source lines 81-93). -/
structure Events where
  window_events : List WindowEventFilter
  hover_events : List HoverEventFilter
  focus_events : List FocusEventFilter
  old_hit_node_ids : List (ℕ × List (ℕ × HitTestItem))
  old_focus_node : Option (ℕ × ℕ)
  current_window_state_mouse_is_down : Bool
  previous_window_state_mouse_is_down : Bool
  event_was_mouse_down : Bool
  event_was_mouse_leave : Bool
  event_was_mouse_release : Bool
deriving DecidableEq, Repr

/-- `Events::new` (source lines 96-143). -/
def Events.new (current_window_state : FullWindowState)
    (previous_window_state : Option FullWindowState) : Events :=
  let current_window_events := get_window_events current_window_state previous_window_state
  let current_hover_events := get_hover_events current_window_events
  let current_focus_events := get_focus_events current_hover_events
  let event_was_mouse_down := current_window_events.contains .MouseDown
  let event_was_mouse_release := current_window_events.contains .MouseUp
  let event_was_mouse_leave := current_window_events.contains .MouseLeave
  let current_window_state_mouse_is_down := current_window_state.mouse_state.mouse_down
  let previous_window_state_mouse_is_down :=
    (previous_window_state.map (fun f => f.mouse_state.mouse_down)).getD false
  let old_focus_node := previous_window_state.bind (fun f => f.focused_node)
  let old_hit_node_ids :=
    (previous_window_state.map (fun f =>
      f.hovered_nodes.map (fun p => (p.1, p.2.regular_hit_test_nodes)))).getD []
  let current_window_events :=
    match previous_window_state with
    | some prev_state =>
        if prev_state.theme ≠ current_window_state.theme then
          current_window_events.insert .ThemeChanged
        else current_window_events
    | none => current_window_events
  let current_hover_events :=
    match previous_window_state with
    | some prev_state =>
        if current_window_state.hovered_nodes ≠ prev_state.hovered_nodes then
          (current_hover_events.insert .MouseLeave).insert .MouseEnter
        else current_hover_events
    | none => current_hover_events
  let current_focus_events :=
    if current_window_state.focused_node ≠ old_focus_node then
      (current_focus_events.insert .FocusReceived).insert .FocusLost
    else current_focus_events
  { window_events := current_window_events
    hover_events := current_hover_events
    focus_events := current_focus_events
    old_hit_node_ids := old_hit_node_ids
    old_focus_node := old_focus_node
    current_window_state_mouse_is_down := current_window_state_mouse_is_down
    previous_window_state_mouse_is_down := previous_window_state_mouse_is_down
    event_was_mouse_down := event_was_mouse_down
    event_was_mouse_leave := event_was_mouse_leave
    event_was_mouse_release := event_was_mouse_release }

/-! ## `NodesToCheck` (src/azul-core/src/window_state.rs lines 159-240) -/

/-- `BTreeMap::get` over an association list (first match). -/
def alookup {α : Type} (d : ℕ) : List (ℕ × α) → Option α
  | [] => none
  | (k, v) :: t => if k = d then some v else alookup d t

/-- The part of `FullHitTest` (azul-core `window.rs`, not under `src/`)
that `NodesToCheck::new` reads: the per-DOM hovered nodes and the focused
node. -/
structure FullHitTest where
  hovered_nodes : List (ℕ × DomHitTest)
  focused_node : Option (ℕ × ℕ)
deriving DecidableEq, Repr

/-- `NodesToCheck` (source lines 159-168). -/
structure NodesToCheck where
  new_hit_node_ids : List (ℕ × List (ℕ × HitTestItem))
  old_hit_node_ids : List (ℕ × List (ℕ × HitTestItem))
  onmouseenter_nodes : List (ℕ × List (ℕ × HitTestItem))
  onmouseleave_nodes : List (ℕ × List (ℕ × HitTestItem))
  old_focus_node : Option (ℕ × ℕ)
  new_focus_node : Option (ℕ × ℕ)
  current_window_state_mouse_is_down : Bool
deriving DecidableEq, Repr

/-- `NodesToCheck::new` (source lines 173-219).  Note the `?` in the
`onmouseenter_nodes` closure: `events.old_hit_node_ids.get(dom_id)?` makes a
DOM with no entry in the old hit map contribute nothing; the
`onmouseleave_nodes` side instead treats a missing DOM as an empty map. -/
def NodesToCheck.new (hit_test : FullHitTest) (events : Events) : NodesToCheck :=
  let new_hit_node_ids :=
    if events.event_was_mouse_leave then []
    else hit_test.hovered_nodes.map (fun kv => (kv.1, kv.2.regular_hit_test_nodes))
  let new_focus_node :=
    if events.event_was_mouse_down || events.event_was_mouse_release then
      hit_test.focused_node
    else events.old_focus_node
  let onmouseenter_nodes :=
    new_hit_node_ids.filterMap (fun dn =>
      match alookup dn.1 events.old_hit_node_ids with
      | none => none
      | some old_hit_nodes =>
          let nw := dn.2.filter (fun cn => (alookup cn.1 old_hit_nodes).isNone)
          if nw.isEmpty then none else some (dn.1, nw))
  let onmouseleave_nodes :=
    events.old_hit_node_ids.filterMap (fun dn =>
      let old := dn.2.filter (fun pn =>
        ((alookup dn.1 new_hit_node_ids).bind (fun d => alookup pn.1 d)).isNone)
      if old.isEmpty then none else some (dn.1, old))
  { new_hit_node_ids := new_hit_node_ids
    old_hit_node_ids := events.old_hit_node_ids
    onmouseenter_nodes := onmouseenter_nodes
    onmouseleave_nodes := onmouseleave_nodes
    old_focus_node := events.old_focus_node
    new_focus_node := new_focus_node
    current_window_state_mouse_is_down := events.current_window_state_mouse_is_down }

/-- Whether node `n` of DOM `d` is present in a per-DOM hit map. -/
def hit_mem (m : List (ℕ × List (ℕ × HitTestItem))) (d n : ℕ) : Bool :=
  ((alookup d m).bind (fun l => alookup n l)).isSome

/-! ## Concrete instances used by counterexamples and witnesses -/

/-- A change set with one changed style-only property and nothing else. -/
def slc_style_only_example : StyleAndLayoutChanges :=
  ⟨[(0, [(0, [⟨⟨.opacity⟩, ⟨.opacity⟩⟩])])], [], []⟩

/-- A change set whose three categories are all non-empty and whose changed
style properties are all GPU-only. -/
def slc_all_gpu_example : StyleAndLayoutChanges :=
  ⟨[(0, [(0, [⟨⟨.transform⟩, ⟨.transform⟩⟩])])],
   [(0, [(0, [⟨⟨.width⟩, ⟨.width⟩⟩])])],
   [(0, [0])]⟩

/-- A quiescent window state: no close request, no scroll, no character. -/
def fws_plain : FullWindowState :=
  ⟨⟨false, false⟩, ⟨(800, 600), 1, 1⟩, .Uninitialized,
   ⟨.Uninitialized, false, false, false, none, none⟩, ⟨none, none⟩,
   .Light, none, none, [], none⟩

/-- The quiescent state with `current_char` set. -/
def fws_char : FullWindowState :=
  { fws_plain with keyboard_state := ⟨none, some 97⟩ }

/-- An `Events` value with an empty old hit map and no mouse flags. -/
def events_empty_old : Events :=
  ⟨[], [], [], [], none, false, false, false, false, false⟩

/-- A hit test hitting node 0 of DOM 0 only. -/
def hit_single : FullHitTest := ⟨[(0, ⟨[(0, ⟨0⟩)]⟩)], none⟩

/-- An `Events` value whose old hit map has DOM 1 hitting node 3. -/
def events_with_old : Events :=
  ⟨[], [], [], [(1, [(3, ⟨0⟩)])], none, false, false, false, false, false⟩

/-- A hit test hitting node 0 of DOM 0 and nodes 2, 3 of DOM 1. -/
def hit_two : FullHitTest :=
  ⟨[(0, ⟨[(0, ⟨0⟩)]⟩), (1, ⟨[(2, ⟨0⟩), (3, ⟨0⟩)]⟩)], none⟩

/-! ## Helper lemmas -/

theorem determine_preferred_both_bounds (w mn mx : ℚ) :
    determine_preferred (some w) (some mn) (some mx) =
      if w = (if mn < mx then mn else mx) ∨ w = mx then .unconstrained
      else .equalTo (min (max w (if mn < mx then mn else mx)) mx) := by
  by_cases h : mn < mx
  · rcases lt_trichotomy w mn with h3 | h3 | h3
    · have hwx : w < mx := lt_trans h3 h
      simp [determine_preferred, h, h3, lt_asymm h3, lt_asymm hwx, ne_of_lt h3,
        ne_of_lt hwx, max_eq_right h3.le, min_eq_left h.le]
    · subst h3
      simp [determine_preferred, h, lt_irrefl, lt_asymm h]
    · rcases lt_trichotomy w mx with h4 | h4 | h4
      · simp [determine_preferred, h, h3, h4, lt_asymm h4, ne_of_gt h3, ne_of_lt h4,
          max_eq_left h3.le, min_eq_left h4.le]
      · subst h4
        simp [determine_preferred, h, h3, lt_irrefl, lt_asymm h3]
      · simp [determine_preferred, h, h3, h4, lt_asymm h4, ne_of_gt h3, ne_of_gt h4,
          max_eq_left h3.le, min_eq_right h4.le]
  · rcases lt_trichotomy w mx with h4 | h4 | h4
    · simp [determine_preferred, h, h4, lt_asymm h4, ne_of_lt h4,
        max_eq_right h4.le, min_self]
    · subst h4
      simp [determine_preferred, h, lt_irrefl]
    · simp [determine_preferred, h, h4, lt_asymm h4, ne_of_gt h4,
        max_eq_left h4.le, min_eq_right h4.le]

theorem foldl_discard {α β : Type} (f : α → β → α) (hf : ∀ a b, f a b = a) :
    ∀ (l : List β) (init : α), List.foldl f init l = init
  | [], _ => rfl
  | b :: t, init => by rw [List.foldl_cons, hf, foldl_discard f hf t]

theorem moved_event_self (p : WindowPosition) : moved_event p p = false := by
  cases p <;> simp [moved_event]

theorem mouse_leave_event_self (c : CursorPosition) : mouse_leave_event c c = false := by
  cases c <;> simp [mouse_leave_event]

theorem mouse_enter_event_self (c : CursorPosition) : mouse_enter_event c c = false := by
  cases c <;> simp [mouse_enter_event]

theorem mouse_over_event_self (c : CursorPosition) : mouse_over_event c c = false := by
  cases c <;> simp [mouse_over_event]

theorem bool_true_and_false (b : Bool) : (b = true ∧ b = false) ↔ False := by
  cases b <;> simp

theorem get_window_events_self (s : FullWindowState)
    (h1 : s.flags.is_about_to_close = false)
    (h2 : s.mouse_state.scroll_x = none) (h3 : s.mouse_state.scroll_y = none)
    (h4 : s.keyboard_state.current_char = none) :
    get_window_events s (some s) = [] := by
  rcases hhf : s.hovered_file with _ | f <;>
    rcases hkc : s.keyboard_state.current_virtual_keycode with _ | k <;>
      simp [get_window_events, cond_insert, h1, h2, h3, h4, hhf, hkc, moved_event_self,
        mouse_leave_event_self, mouse_enter_event_self, mouse_over_event_self,
        bool_true_and_false]

theorem alookup_eq_none_of_not_mem {α : Type} (l : List (ℕ × α)) (d : ℕ)
    (h : d ∉ l.map Prod.fst) : alookup d l = none := by
  induction l with
  | nil => rfl
  | cons hd t ih =>
      simp only [List.map_cons, List.mem_cons] at h
      push_neg at h
      simp only [alookup]
      rw [if_neg (fun hk : hd.1 = d => h.1 (hk ▸ rfl))]
      exact ih h.2

theorem alookup_filterMap_keyed {α β : Type} (f : ℕ × α → Option (ℕ × β))
    (hkey : ∀ p q, f p = some q → q.1 = p.1) :
    ∀ (l : List (ℕ × α)), (l.map Prod.fst).Nodup → ∀ d,
      alookup d (l.filterMap f) = (alookup d l).bind (fun a => (f (d, a)).map Prod.snd) := by
  intro l
  induction l with
  | nil => intro _ d; rfl
  | cons hd t ih =>
      intro hnd d
      simp only [List.map_cons, List.nodup_cons] at hnd
      cases hf : f hd with
      | none =>
          rw [List.filterMap_cons_none hf]
          by_cases hk : hd.1 = d
          · subst hk
            have hnone : alookup hd.1 (t.filterMap f) = none := by
              apply alookup_eq_none_of_not_mem
              intro hmem
              rcases List.mem_map.mp hmem with ⟨q, hqmem, hq1⟩
              rcases List.mem_filterMap.mp hqmem with ⟨pp, hpmem, hfp⟩
              apply hnd.1
              apply List.mem_map.mpr
              refine ⟨pp, hpmem, ?_⟩
              rw [hkey pp q hfp] at hq1
              exact hq1
            simp [alookup, hnone, Prod.mk.eta, hf]
          · simp only [alookup, if_neg hk]
            exact ih hnd.2 d
      | some q =>
          have hq1 : q.1 = hd.1 := hkey hd q hf
          rw [List.filterMap_cons_some hf]
          by_cases hk : hd.1 = d
          · subst hk
            simp [alookup, hq1, Prod.mk.eta, hf]
          · simp only [alookup, hq1, if_neg hk]
            exact ih hnd.2 d

theorem alookup_filter_key {α : Type} (p : ℕ → Bool) (n : ℕ) :
    ∀ l : List (ℕ × α),
      alookup n (l.filter (fun q => p q.1)) = if p n then alookup n l else none := by
  intro l
  induction l with
  | nil => cases hp : p n <;> simp [alookup, hp]
  | cons hd t ih =>
      rw [List.filter_cons]
      cases hph : p hd.1 with
      | false =>
          simp only [hph, Bool.false_eq_true, if_false]
          rw [ih]
          by_cases hk : hd.1 = n
          · subst hk
            simp [hph]
          · cases hpn : p n <;> simp [alookup, hpn, hk]
      | true =>
          simp only [hph, if_true]
          by_cases hk : hd.1 = n
          · subst hk
            simp [alookup, hph]
          · simp only [alookup, if_neg hk]
            exact ih

theorem enter_nodes_lookup (newHit oldHit : List (ℕ × List (ℕ × HitTestItem)))
    (hnd : (newHit.map Prod.fst).Nodup) (d : ℕ) :
    alookup d (newHit.filterMap (fun dn =>
      match alookup dn.1 oldHit with
      | none => none
      | some old_hit_nodes =>
          let nw := dn.2.filter (fun cn => (alookup cn.1 old_hit_nodes).isNone)
          if nw.isEmpty then none else some (dn.1, nw))) =
    (alookup d newHit).bind (fun a =>
      match alookup d oldHit with
      | none => none
      | some old_hit_nodes =>
          let nw := a.filter (fun cn => (alookup cn.1 old_hit_nodes).isNone)
          if nw.isEmpty then none else some nw) := by
  rw [alookup_filterMap_keyed _ ?hkey newHit hnd d]
  case hkey =>
    intro pp q hfq
    revert hfq
    cases ho : alookup pp.1 oldHit with
    | none => intro hfq; exact absurd hfq (by simp)
    | some oh =>
        by_cases he : (pp.2.filter (fun cn => (alookup cn.1 oh).isNone)).isEmpty <;>
          simp only [he, if_true, if_false, Bool.not_eq_true] <;> intro hfq
        · exact absurd hfq (by simp)
        · rw [if_neg (by simp [he])] at hfq
          cases hfq
          rfl
  cases ha : alookup d newHit with
  | none => rfl
  | some a =>
      cases ho : alookup d oldHit with
      | none => simp [ho]
      | some oh =>
          by_cases he : (a.filter (fun cn => (alookup cn.1 oh).isNone)).isEmpty <;>
            simp [ho, he]

theorem leave_nodes_lookup (newHit oldHit : List (ℕ × List (ℕ × HitTestItem)))
    (hnd : (oldHit.map Prod.fst).Nodup) (d : ℕ) :
    alookup d (oldHit.filterMap (fun dn =>
      let old := dn.2.filter (fun pn =>
        ((alookup dn.1 newHit).bind (fun l => alookup pn.1 l)).isNone)
      if old.isEmpty then none else some (dn.1, old))) =
    (alookup d oldHit).bind (fun a =>
      let old := a.filter (fun pn =>
        ((alookup d newHit).bind (fun l => alookup pn.1 l)).isNone)
      if old.isEmpty then none else some old) := by
  rw [alookup_filterMap_keyed _ ?hkey oldHit hnd d]
  case hkey =>
    intro pp q hfq
    revert hfq
    by_cases he : (pp.2.filter (fun pn =>
        ((alookup pp.1 newHit).bind (fun l => alookup pn.1 l)).isNone)).isEmpty <;>
      intro hfq
    · rw [if_pos he] at hfq
      exact absurd hfq (by simp)
    · rw [if_neg he] at hfq
      cases hfq
      rfl
  cases ha : alookup d oldHit with
  | none => rfl
  | some a =>
      by_cases he : (a.filter (fun pn =>
          ((alookup d newHit).bind (fun l => alookup pn.1 l)).isNone)).isEmpty <;>
        simp [he]

theorem enter_mem_helper (a oh : List (ℕ × HitTestItem)) (n : ℕ) :
    (((if (a.filter (fun cn => (alookup cn.1 oh).isNone)).isEmpty then none
       else some (a.filter (fun cn => (alookup cn.1 oh).isNone))) : Option _).bind
      (fun l => alookup n l)).isSome =
    ((alookup n a).isSome && (alookup n oh).isNone) := by
  have hf := alookup_filter_key (fun k => (alookup k oh).isNone) n a
  by_cases he : (a.filter (fun cn => (alookup cn.1 oh).isNone)).isEmpty
  · rw [if_pos he]
    rw [List.isEmpty_iff.mp he] at hf
    cases hq : (alookup n oh).isNone
    · simp [hq]
    · rw [hq] at hf
      simp only [alookup, if_true] at hf
      simp [hq, ← hf]
  · rw [if_neg he]
    simp only [Option.some_bind, hf]
    cases hq : (alookup n oh).isNone <;> simp [hq]

theorem leave_mem_helper (oh : List (ℕ × HitTestItem))
    (b : Option (List (ℕ × HitTestItem))) (n : ℕ) :
    (((if (oh.filter (fun pn => (b.bind (fun l => alookup pn.1 l)).isNone)).isEmpty then none
       else some (oh.filter (fun pn => (b.bind (fun l => alookup pn.1 l)).isNone))) :
        Option _).bind (fun l => alookup n l)).isSome =
    ((alookup n oh).isSome && !((b.bind (fun l => alookup n l)).isSome)) := by
  have hf := alookup_filter_key (fun k => (b.bind (fun l => alookup k l)).isNone) n oh
  by_cases he : (oh.filter (fun pn => (b.bind (fun l => alookup pn.1 l)).isNone)).isEmpty
  · rw [if_pos he]
    rw [List.isEmpty_iff.mp he] at hf
    cases hq : (b.bind (fun l => alookup n l)).isNone
    · have : (b.bind (fun l => alookup n l)).isSome = true := by
        cases hb : b.bind (fun l => alookup n l)
        · rw [hb] at hq; simp at hq
        · simp
      simp [hq, this] at hf ⊢
    · rw [hq] at hf
      simp only [alookup, if_true] at hf
      simp [← hf]
  · rw [if_neg he]
    simp only [Option.some_bind, hf]
    cases hq : (b.bind (fun l => alookup n l)).isNone
    · have : (b.bind (fun l => alookup n l)).isSome = true := by
        cases hb : b.bind (fun l => alookup n l)
        · rw [hb] at hq; simp at hq
        · simp
      simp [hq, this]
    · have : (b.bind (fun l => alookup n l)).isSome = false := by
        cases hb : b.bind (fun l => alookup n l)
        · simp
        · rw [hb] at hq; simp at hq
      simp [hq, this]

/-! ## Claim theorems -/

/-- C1 (amended): the full behaviour of `determine_preferred`.  For
`Some(w)` with at most one bound it is `EqualTo(clamp(w, bound))`; with both
bounds present (collapsed to `(max, max)` when `min > max`) it is
`EqualTo(clamp(w, lo, max))` **except** on the boundary `w = lo` or
`w = max`, where the branch the source marks `/* unreachable */` returns
`Unconstrained`.  For `None` with both bounds it returns
`Between(lo, max)` — on inversion the collapsed pair `Between(max, max)`,
not `EqualTo(max)`; `None/None/Some(x)` gives `Between(0, x)`;
`None/Some(n)/None` gives `Between(n, f32::MAX)`; all-`None` gives
`Unconstrained`. -/
theorem c1_determine_preferred_amended (w mn mx : ℚ) :
    determine_preferred (some w) none none = .equalTo w ∧
    determine_preferred (some w) none (some mx) = .equalTo (min w mx) ∧
    determine_preferred (some w) (some mn) none = .equalTo (max w mn) ∧
    (determine_preferred (some w) (some mn) (some mx) =
      if w = (if mn < mx then mn else mx) ∨ w = mx then .unconstrained
      else .equalTo (min (max w (if mn < mx then mn else mx)) mx)) ∧
    (determine_preferred none (some mn) (some mx) =
      if mn < mx then .between mn mx .min else .between mx mx .min) ∧
    determine_preferred none none (some mx) = .between 0 mx .min ∧
    determine_preferred none (some mn) none = .between mn f32Max .min ∧
    determine_preferred none none none = .unconstrained := by
  refine ⟨rfl, rfl, rfl, determine_preferred_both_bounds w mn mx, ?_, rfl, rfl, rfl⟩
  by_cases h : mn < mx <;> simp [determine_preferred, h]

/-- C1 counterexample: `determine_preferred(None, Some 600, Some 400)` is
`Between(400, 400)` and not the `EqualTo(400)` the claim requires, and
`determine_preferred(Some 400, Some 200, Some 400)` — `w` equal to the max
bound — is `Unconstrained`, not `EqualTo(400)`. -/
theorem c1_determine_preferred_counterexample :
    determine_preferred none (some 600) (some 400) = .between 400 400 .min ∧
    determine_preferred none (some 600) (some 400) ≠ .equalTo 400 ∧
    determine_preferred (some 400) (some 200) (some 400) = .unconstrained ∧
    determine_preferred (some 400) (some 200) (some 400) ≠ .equalTo 400 := by
  refine ⟨by decide, by decide, by decide, by decide⟩

/-- C2: `from_style_transform_vec` returns `IDENTITY` for **every** input —
the loop discards the `#[must_use]` result of `then` — so on the singleton
list `[TranslateX(10px)]` it returns `IDENTITY` while the fold the spec
describes returns the (non-identity) translation product. -/
theorem c2_from_style_transform_vec_identity :
    (∀ (t_vec : List StyleTransform) (transform_origins : List StyleTransformOrigin)
       (percent_resolve : ℚ),
       ComputedTransform3D.from_style_transform_vec t_vec transform_origins percent_resolve =
         ComputedTransform3D.IDENTITY) ∧
    ComputedTransform3D.from_style_transform_vec [.translateX (.px 10)] [] 0 =
      ComputedTransform3D.IDENTITY ∧
    from_style_transform_vec_spec [.translateX (.px 10)] [] 0 ≠
      ComputedTransform3D.IDENTITY := by
  have hall : ∀ (t_vec : List StyleTransform) (transform_origins : List StyleTransformOrigin)
      (percent_resolve : ℚ),
      ComputedTransform3D.from_style_transform_vec t_vec transform_origins percent_resolve =
        ComputedTransform3D.IDENTITY := by
    intro t_vec transform_origins percent_resolve
    exact foldl_discard _ (fun _ _ => rfl) t_vec.enum ComputedTransform3D.IDENTITY
  refine ⟨hall, hall _ _ _, ?_⟩
  norm_num [from_style_transform_vec_spec, List.enum, ComputedTransform3D.from_style_transform,
    ComputedTransform3D.new_translation, ComputedTransform3D.then_, ComputedTransform3D.IDENTITY,
    ComputedTransform3D.new, f32_mul_add, PixelValue.to_pixels]

/-- C3: `need_redraw` is the **conjunction** of the three non-emptiness
tests, not the disjunction the claim states: on a change set whose only
non-empty category is `style_changes` it returns `false`, and in general it
is `true` iff all three categories are non-empty. -/
theorem c3_need_redraw_requires_all_three :
    slc_style_only_example.need_redraw = false ∧
    slc_style_only_example.style_changes ≠ [] ∧
    (∀ s : StyleAndLayoutChanges,
       s.need_redraw = true ↔
         s.style_changes ≠ [] ∧ s.layout_changes ≠ [] ∧ s.nodes_that_changed_size ≠ []) := by
  refine ⟨by decide, by decide, ?_⟩
  intro s
  simp [StyleAndLayoutChanges.need_redraw, List.isEmpty_iff, and_assoc]

/-- C4: on a change set where `need_redraw` holds and every changed style
property is GPU-only, `need_regenerate_display_list` returns `true` — the
source's `all(is_gpu_only_property)` is not negated — where the claim says
it must return `false`. -/
theorem c4_need_regenerate_display_list_not_negated :
    slc_all_gpu_example.need_redraw = true ∧
    slc_all_gpu_example.style_changes.all (fun restyle_nodes =>
      restyle_nodes.2.all (fun changed_css_properties =>
        changed_css_properties.2.all (fun changed_prop =>
          changed_prop.current_prop.get_type.is_gpu_only_property))) = true ∧
    slc_all_gpu_example.need_regenerate_display_list = true := by
  refine ⟨by decide, by decide, by decide⟩

/-- C5: the per-node transform diff of `synchronize` emits
`Changed(key, new)` for **every** `Some(old) → Some(new)` pair — there is no
`old ≠ new` check — so with `old = new` (here the identity matrix) an event
is still emitted and a second `synchronize` with unchanged CSS is not
event-free. -/
theorem c5_synchronize_changed_unconditional :
    (∀ (old_t : ComputedTransform3D) (fresh_key : TransformKey) (k : TransformKey),
       synchronize_transform_event (some old_t) (some old_t) fresh_key (some k) =
         some (.Changed k old_t)) ∧
    synchronize_transform_event (some ComputedTransform3D.IDENTITY)
        (some ComputedTransform3D.IDENTITY) ⟨1⟩ (some ⟨0⟩) ≠ none := by
  exact ⟨fun _ _ _ => rfl, by simp [synchronize_transform_event]⟩

/-- C6 counterexample: for the state with `current_char` set,
`Events::new(s, Some(s))` contains `TextInput` — `TextInput` is
level-triggered, not a delta — so the event set is not empty as the claim
requires. -/
theorem c6_events_new_self_counterexample :
    (Events.new fws_char (some fws_char)).window_events = [.TextInput] ∧
    ([WindowEventFilter.TextInput] : List WindowEventFilter) ≠ [] := by
  exact ⟨by decide, by decide⟩

/-- C6 (amended): `Events::new(s, Some(s))` yields no window, hover or
focus events **provided** the level-triggered inputs are absent:
`is_about_to_close` unset, no `scroll_x`/`scroll_y`, no `current_char`. -/
theorem c6_events_new_self_empty (s : FullWindowState)
    (h1 : s.flags.is_about_to_close = false)
    (h2 : s.mouse_state.scroll_x = none) (h3 : s.mouse_state.scroll_y = none)
    (h4 : s.keyboard_state.current_char = none) :
    (Events.new s (some s)).window_events = [] ∧
    (Events.new s (some s)).hover_events = [] ∧
    (Events.new s (some s)).focus_events = [] := by
  have hw := get_window_events_self s h1 h2 h3 h4
  refine ⟨?_, ?_, ?_⟩ <;> simp [Events.new, hw, get_hover_events, get_focus_events]

/-- C6 witness: the amended theorem applied to a concrete quiescent state. -/
theorem c6_events_new_self_empty_witness :
    (Events.new fws_plain (some fws_plain)).window_events = [] ∧
    (Events.new fws_plain (some fws_plain)).hover_events = [] ∧
    (Events.new fws_plain (some fws_plain)).focus_events = [] :=
  c6_events_new_self_empty fws_plain rfl rfl rfl rfl

/-- C7 counterexample: node 0 of DOM 0 is newly hit and DOM 0 has **no**
entry in the old hit map, yet `onmouseenter_nodes` is empty — the `?` on
`old_hit_node_ids.get(dom_id)` drops the whole DOM — where the claim's
`new \ old` semantics requires the node to appear. -/
theorem c7_nodes_to_check_counterexample :
    (NodesToCheck.new hit_single events_empty_old).onmouseenter_nodes = [] ∧
    hit_mem (NodesToCheck.new hit_single events_empty_old).new_hit_node_ids 0 0 = true ∧
    alookup 0 events_empty_old.old_hit_node_ids = none := by
  refine ⟨by decide, by decide, by decide⟩

/-- C7 (amended): under distinct per-DOM keys, (1) a `MouseLeave` event
empties `new_hit_node_ids`; (2) a DOM with no entry in the old hit map
contributes nothing to `onmouseenter_nodes`; (3) for a DOM **with** an old
entry, `onmouseenter_nodes` holds exactly `new \ old`; and (4)
`onmouseleave_nodes` holds exactly `old \ new` for every DOM with an old
entry. -/
theorem c7_nodes_to_check_amended (hit_test : FullHitTest) (events : Events)
    (hnew : (((NodesToCheck.new hit_test events).new_hit_node_ids).map Prod.fst).Nodup)
    (hold : ((events.old_hit_node_ids).map Prod.fst).Nodup) :
    (events.event_was_mouse_leave = true →
       (NodesToCheck.new hit_test events).new_hit_node_ids = []) ∧
    (∀ d, alookup d events.old_hit_node_ids = none →
       alookup d (NodesToCheck.new hit_test events).onmouseenter_nodes = none) ∧
    (∀ d old_hit_nodes, alookup d events.old_hit_node_ids = some old_hit_nodes →
       ∀ n, hit_mem (NodesToCheck.new hit_test events).onmouseenter_nodes d n =
         (hit_mem (NodesToCheck.new hit_test events).new_hit_node_ids d n &&
          (alookup n old_hit_nodes).isNone)) ∧
    (∀ d old_hit_nodes, alookup d events.old_hit_node_ids = some old_hit_nodes →
       ∀ n, hit_mem (NodesToCheck.new hit_test events).onmouseleave_nodes d n =
         ((alookup n old_hit_nodes).isSome &&
          !(hit_mem (NodesToCheck.new hit_test events).new_hit_node_ids d n))) := by
  have henter : (NodesToCheck.new hit_test events).onmouseenter_nodes =
      ((NodesToCheck.new hit_test events).new_hit_node_ids).filterMap (fun dn =>
        match alookup dn.1 events.old_hit_node_ids with
        | none => none
        | some old_hit_nodes =>
            let nw := dn.2.filter (fun cn => (alookup cn.1 old_hit_nodes).isNone)
            if nw.isEmpty then none else some (dn.1, nw)) := rfl
  have hleave : (NodesToCheck.new hit_test events).onmouseleave_nodes =
      (events.old_hit_node_ids).filterMap (fun dn =>
        let old := dn.2.filter (fun pn =>
          ((alookup dn.1 ((NodesToCheck.new hit_test events).new_hit_node_ids)).bind
            (fun l => alookup pn.1 l)).isNone)
        if old.isEmpty then none else some (dn.1, old)) := rfl
  refine ⟨?_, ?_, ?_, ?_⟩
  · intro h
    simp [NodesToCheck.new, h]
  · intro d hd
    rw [henter, enter_nodes_lookup _ _ hnew d]
    cases ha : alookup d ((NodesToCheck.new hit_test events).new_hit_node_ids) <;>
      simp [ha, hd]
  · intro d old_hit_nodes hd n
    rw [hit_mem, henter, enter_nodes_lookup _ _ hnew d, hd, hit_mem]
    cases ha : alookup d ((NodesToCheck.new hit_test events).new_hit_node_ids) with
    | none => simp
    | some a =>
        simp only [Option.some_bind]
        exact enter_mem_helper a old_hit_nodes n
  · intro d old_hit_nodes hd n
    rw [hit_mem, hleave, leave_nodes_lookup _ _ hold d, hd, hit_mem]
    simp only [Option.some_bind]
    exact leave_mem_helper old_hit_nodes
      (alookup d ((NodesToCheck.new hit_test events).new_hit_node_ids)) n

/-- C7 witness: the amended theorem's `new \ old` characterisation applied
to a concrete hit test (DOM 1 previously hit node 3, now hits nodes 2, 3). -/
theorem c7_nodes_to_check_witness :
    hit_mem (NodesToCheck.new hit_two events_with_old).onmouseenter_nodes 1 2 =
      (hit_mem (NodesToCheck.new hit_two events_with_old).new_hit_node_ids 1 2 &&
       (alookup 2 [(3, (⟨0⟩ : HitTestItem))]).isNone) :=
  (c7_nodes_to_check_amended hit_two events_with_old (by decide) (by decide)).2.2.1
    1 [(3, ⟨0⟩)] (by decide) 2

/-- C8 counterexample: on the all-zero matrix and the origin, `w = 0` — the
boundary case the claim says must fail — yet `transform_point2d` returns
`Some (0, 0)`, because the guard is `!w.is_sign_positive()` and `+0` has a
positive sign. -/
theorem c8_transform_point2d_w_zero_counterexample :
    tpw (ComputedTransform3D.new 0 0 0 0 0 0 0 0 0 0 0 0 0 0 0 0) 0 0 = 0 ∧
    (ComputedTransform3D.new 0 0 0 0 0 0 0 0 0 0 0 0 0 0 0 0).transform_point2d ⟨0, 0⟩ =
      some ⟨0, 0⟩ ∧
    (ComputedTransform3D.new 0 0 0 0 0 0 0 0 0 0 0 0 0 0 0 0).transform_point2d ⟨0, 0⟩ ≠
      none := by
  have h2 : (ComputedTransform3D.new 0 0 0 0 0 0 0 0 0 0 0 0 0 0 0 0).transform_point2d ⟨0, 0⟩ =
      some ⟨0, 0⟩ := by
    norm_num [ComputedTransform3D.transform_point2d, ComputedTransform3D.new, tpw, tpx, tpy,
      f32_mul_add, is_sign_positive]
  refine ⟨by norm_num [tpw, f32_mul_add, ComputedTransform3D.new], h2, ?_⟩
  rw [h2]
  exact Option.some_ne_none _

/-- C8 (amended): `inverse` returns `None` iff the computed determinant is
zero, and `transform_point2d` returns `None` iff `w` is strictly negative —
at `w = 0` the sign guard passes and the code divides by zero instead of
failing; for `w ≥ 0` the result is `(x/w, y/w)`. -/
theorem c8_inverse_and_transform_point2d (t : ComputedTransform3D) (p : LogicalPosition) :
    (t.inverse = none ↔ t.determinant = 0) ∧
    (t.transform_point2d p = none ↔ tpw t p.x p.y < 0) ∧
    (0 ≤ tpw t p.x p.y →
       t.transform_point2d p =
         some ⟨tpx t p.x p.y / tpw t p.x p.y, tpy t p.x p.y / tpw t p.x p.y⟩) := by
  refine ⟨?_, ?_, ?_⟩
  · by_cases h : t.determinant = 0 <;> simp [ComputedTransform3D.inverse, h]
  · by_cases h : 0 ≤ tpw t p.x p.y
    · simp [ComputedTransform3D.transform_point2d, is_sign_positive, h, not_lt.mpr h]
    · simp [ComputedTransform3D.transform_point2d, is_sign_positive, h, not_le.mp h]
  · intro h
    simp [ComputedTransform3D.transform_point2d, is_sign_positive, h]

/-- C8 witness: the projection formula of the amended theorem at the
identity matrix and the point `(3, 4)`. -/
theorem c8_inverse_and_transform_point2d_witness :
    ComputedTransform3D.IDENTITY.transform_point2d ⟨3, 4⟩ =
      some ⟨tpx ComputedTransform3D.IDENTITY 3 4 / tpw ComputedTransform3D.IDENTITY 3 4,
            tpy ComputedTransform3D.IDENTITY 3 4 / tpw ComputedTransform3D.IDENTITY 3 4⟩ :=
  (c8_inverse_and_transform_point2d ComputedTransform3D.IDENTITY ⟨3, 4⟩).2.2
    (by norm_num [tpw, f32_mul_add, ComputedTransform3D.IDENTITY, ComputedTransform3D.new])

/-- C9: every Scale-family arm of `from_style_transform` fills the axes the
transform does not mention with `0`, not `1`: `ScaleX(200%)` produces
`diag(2, 0, 0, 1)` and `Scale(200%, 300%)` produces `diag(2, 3, 0, 1)`
(likewise `ScaleY`, `ScaleZ`, `Scale3D`), where the claim requires
`diag(2, 1, 1, 1)` and `diag(2, 3, 1, 1)`. -/
theorem c9_scale_missing_axes_are_zero :
    ComputedTransform3D.from_style_transform (.scaleX ⟨200⟩) StyleTransformOrigin.default 100 =
      ComputedTransform3D.new_scale 2 0 0 ∧
    (ComputedTransform3D.new_scale 2 0 0).m11 = 0 ∧
    (ComputedTransform3D.new_scale 2 0 0).m22 = 0 ∧
    (ComputedTransform3D.new_scale 2 0 0).m33 = 1 ∧
    ComputedTransform3D.from_style_transform (.scale ⟨200⟩ ⟨300⟩)
        StyleTransformOrigin.default 100 = ComputedTransform3D.new_scale 2 3 0 ∧
    (ComputedTransform3D.new_scale 2 3 0).m22 = 0 ∧
    ComputedTransform3D.from_style_transform (.scaleY ⟨200⟩) StyleTransformOrigin.default 100 =
      ComputedTransform3D.new_scale 0 2 0 ∧
    ComputedTransform3D.from_style_transform (.scaleZ ⟨200⟩) StyleTransformOrigin.default 100 =
      ComputedTransform3D.new_scale 0 0 2 ∧
    ComputedTransform3D.from_style_transform (.scale3D ⟨200⟩ ⟨300⟩ ⟨400⟩)
        StyleTransformOrigin.default 100 = ComputedTransform3D.new_scale 2 3 4 := by
  norm_num [ComputedTransform3D.from_style_transform, PercentageValue.normalized,
    ComputedTransform3D.new_scale, ComputedTransform3D.new]

/-- C10: on the very first frame — previous window state `None` —
`get_window_events` returns the empty set for every current state. -/
theorem c10_first_frame_no_window_events (current : FullWindowState) :
    get_window_events current none = [] := rfl
